import Mathlib

/-!
Shallow embedding of the property-registry subsystem of `src/property_sheet.rs`:
the `Property` variants (Action, Bool, F32, F64, I32, I64, String, Dummy),
the `PropertySheet` container with its structural operations
(`append`/`insert`/`remove`) and the selection/navigation algorithm
(`select_prev`/`select_next` and wrapped variants), together with theorems
checking the specification's claims about them.

Machine integers are modelled as `Nat`/`Int` with explicit wrapping where
overflow or underflow is reachable (usize subtraction in `remove` and in the
`len - 1` computations of the navigation code; i32/i64 addition in
`step_forward`/`step_backward`).  `f32`/`f64` values are modelled by exact
rationals: the operations the claims touch on them (`min`/`max` clamping)
perform no rounding, so the model is order-faithful for non-NaN floats.
-/

/-- Number of values of the 64-bit `usize` type. -/
def USIZE : Nat := 2 ^ 64

/-- Wrapping `usize` subtraction (release-build semantics of Rust's `a - b`);
agrees with two's-complement wrap-around for all representable operands. -/
def usizeSub (a b : Nat) : Nat :=
  if b ≤ a then a - b else USIZE - (b - a)

/-- Wrapping 32-bit signed arithmetic: reduce an integer into `[-2^31, 2^31)`. -/
def wrap32 (x : Int) : Int := (x + 2 ^ 31) % 2 ^ 32 - 2 ^ 31

/-- Wrapping 64-bit signed arithmetic: reduce an integer into `[-2^63, 2^63)`. -/
def wrap64 (x : Int) : Int := (x + 2 ^ 63) % 2 ^ 64 - 2 ^ 63

/-- Rust's `as i32` cast from `usize`: truncate to 32 bits, reinterpret signed. -/
def usizeToI32 (n : Nat) : Int := wrap32 (n : Int)

/-- Rust's `as i64` cast from `usize`: truncate to 64 bits, reinterpret signed. -/
def usizeToI64 (n : Nat) : Int := wrap64 (n : Int)

/-- Modelled from the spec: the median of three values in a linear order
(the spec's clamp law states `value() == median(range.0, v, range.1)`). -/
def median3 {α : Type} [LinearOrder α] (a b c : α) : α :=
  max (min a b) (min (max a b) c)

/-- Discriminant of the property value kind (`ValueType` in the source). -/
inductive ValueType where
  | unknown
  | action
  | bool
  | dummy
  | f32
  | f64
  | i32
  | i64
  | string
deriving DecidableEq, Repr

/-- Rendering-kind hint (`WidgetType` in the source). -/
inductive WidgetType where
  | unknown
  | button
  | checkBox
  | comboBox
  | select
  | separator
  | slider
  | spinBox
  | switch
  | textBox
deriving DecidableEq, Repr

/-- Shared metadata embedded in every concrete property kind
(`PropertyBase` in the source).  The interior-mutability cells
(`Cell<usize>`, `Cell<bool>`) are modelled as plain fields with
functional update. -/
structure PropertyBase where
  id : Nat
  name : String
  options : List String
  value_type : ValueType
  widget_type : WidgetType
  selected : Bool
  visible : Bool
deriving DecidableEq

/-- `PropertyBase::new`: id 0, unselected, visible. -/
def PropertyBase.new (name : String) (options : List String)
    (value_type : ValueType) (widget_type : WidgetType) : PropertyBase :=
  { id := 0, name := name, options := options, value_type := value_type,
    widget_type := widget_type, selected := false, visible := true }

/-- `PropertyBase::with_action_button`. -/
def PropertyBase.with_action_button (name : String) (options : List String) : PropertyBase :=
  PropertyBase.new name options ValueType.action WidgetType.button

/-- `PropertyBase::with_action_check_box`. -/
def PropertyBase.with_action_check_box (name : String) : PropertyBase :=
  PropertyBase.new name [] ValueType.action WidgetType.checkBox

/-- `PropertyBase::with_slider_f32`. -/
def PropertyBase.with_slider_f32 (name : String) : PropertyBase :=
  PropertyBase.new name [] ValueType.f32 WidgetType.slider

/-- `PropertyBase::with_slider_f64`. -/
def PropertyBase.with_slider_f64 (name : String) : PropertyBase :=
  PropertyBase.new name [] ValueType.f64 WidgetType.slider

/-- `PropertyBase::with_combo_box_i32`. -/
def PropertyBase.with_combo_box_i32 (name : String) (options : List String) : PropertyBase :=
  PropertyBase.new name options ValueType.i32 WidgetType.comboBox

/-- `PropertyBase::with_combo_box_i64`. -/
def PropertyBase.with_combo_box_i64 (name : String) (options : List String) : PropertyBase :=
  PropertyBase.new name options ValueType.i64 WidgetType.comboBox

/-- `PropertyBase::with_select_i32`. -/
def PropertyBase.with_select_i32 (name : String) (options : List String) : PropertyBase :=
  PropertyBase.new name options ValueType.i32 WidgetType.select

/-- `PropertyBase::with_select_i64`. -/
def PropertyBase.with_select_i64 (name : String) (options : List String) : PropertyBase :=
  PropertyBase.new name options ValueType.i64 WidgetType.select

/-- `PropertyBase::with_slider_i32`. -/
def PropertyBase.with_slider_i32 (name : String) : PropertyBase :=
  PropertyBase.new name [] ValueType.i32 WidgetType.slider

/-- `PropertyBase::with_slider_i64`. -/
def PropertyBase.with_slider_i64 (name : String) : PropertyBase :=
  PropertyBase.new name [] ValueType.i64 WidgetType.slider

/-- `PropertyBase::with_separator`. -/
def PropertyBase.with_separator : PropertyBase :=
  PropertyBase.new "" [] ValueType.dummy WidgetType.separator

/-- `PropertyBase::with_spin_box_f32`. -/
def PropertyBase.with_spin_box_f32 (name : String) : PropertyBase :=
  PropertyBase.new name [] ValueType.f32 WidgetType.spinBox

/-- `PropertyBase::with_spin_box_f64`. -/
def PropertyBase.with_spin_box_f64 (name : String) : PropertyBase :=
  PropertyBase.new name [] ValueType.f64 WidgetType.spinBox

/-- `PropertyBase::with_spin_box_i32`. -/
def PropertyBase.with_spin_box_i32 (name : String) : PropertyBase :=
  PropertyBase.new name [] ValueType.i32 WidgetType.spinBox

/-- `PropertyBase::with_spin_box_i64`. -/
def PropertyBase.with_spin_box_i64 (name : String) : PropertyBase :=
  PropertyBase.new name [] ValueType.i64 WidgetType.spinBox

/-- `PropertyBase::with_switch`. -/
def PropertyBase.with_switch (name : String) : PropertyBase :=
  PropertyBase.new name [] ValueType.bool WidgetType.switch

/-- `PropertyBase::with_text_box`. -/
def PropertyBase.with_text_box (name : String) : PropertyBase :=
  PropertyBase.new name [] ValueType.string WidgetType.textBox

/-- What an action callback can observe of the property it is invoked on
(the `&dyn Property` argument of `ActionCallback`): the shared metadata and
the current checked state. -/
structure ActionView where
  base : PropertyBase
  checked : Bool

/-- `PropertyAction`: a `PropertyBase` plus a checked flag and a stored
callback.  The `Arc<RefCell<dyn FnMut...>>` callback is modelled as a pure
function of the observable state and the requested flag. -/
structure PropertyAction where
  base : PropertyBase
  checked : Bool
  callback : ActionView → Bool → Bool

/-- `PropertyAction::with_button`. -/
def PropertyAction.with_button (name : String) (text : String)
    (callback : ActionView → Bool → Bool) : PropertyAction :=
  { base := PropertyBase.with_action_button name [text],
    checked := false, callback := callback }

/-- `PropertyAction::with_check_box`. -/
def PropertyAction.with_check_box (name : String) (checked : Bool)
    (callback : ActionView → Bool → Bool) : PropertyAction :=
  { base := PropertyBase.with_action_check_box name,
    checked := checked, callback := callback }

/-- `PropertyAction::is_checked`. -/
def PropertyAction.is_checked (p : PropertyAction) : Bool := p.checked

/-- `PropertyAction::trigger`: invoke the stored callback with `(self,
requested)`, store its result as the new checked state and return it.
Returns the result paired with the updated property. -/
def PropertyAction.trigger (p : PropertyAction) (checked : Bool) :
    Bool × PropertyAction :=
  let result := p.callback ⟨p.base, p.checked⟩ checked
  (result, { p with checked := result })

/-- `PropertyBool`: a switch with an unclamped boolean value. -/
structure PropertyBool where
  base : PropertyBase
  def_val : Bool
  value : Bool
deriving DecidableEq

/-- `PropertyBool::with_switch`. -/
def PropertyBool.with_switch (name : String) (def_val : Bool) : PropertyBool :=
  { base := PropertyBase.with_switch name, def_val := def_val, value := def_val }

/-- `PropertyBool::set_value`: unconditional store, returns the stored value. -/
def PropertyBool.set_value (p : PropertyBool) (value : Bool) :
    Bool × PropertyBool :=
  (value, { p with value := value })

/-- `PropertyBool::toggle`. -/
def PropertyBool.toggle (p : PropertyBool) : Bool × PropertyBool :=
  p.set_value (!p.value)

/-- `PropertyF32`: float fields modelled by exact rationals.  The operations
used by the claims (`min`/`max` clamping in `set_value`) are order-theoretic
and perform no rounding, so this model is faithful for non-NaN floats. -/
structure PropertyF32 where
  base : PropertyBase
  range : Rat × Rat
  step : Rat
  def_val : Rat
  value : Rat
deriving DecidableEq

/-- `PropertyF32::with_slider`: the default value is stored unclamped. -/
def PropertyF32.with_slider (name : String) (range : Rat × Rat)
    (step def_val : Rat) : PropertyF32 :=
  { base := PropertyBase.with_slider_f32 name, range := range,
    step := step, def_val := def_val, value := def_val }

/-- `PropertyF32::with_spin_box`. -/
def PropertyF32.with_spin_box (name : String) (range : Rat × Rat)
    (step def_val : Rat) : PropertyF32 :=
  { base := PropertyBase.with_spin_box_f32 name, range := range,
    step := step, def_val := def_val, value := def_val }

/-- `PropertyF32::set_value`: store `value.min(range.1).max(range.0)` and
return it. -/
def PropertyF32.set_value (p : PropertyF32) (value : Rat) : Rat × PropertyF32 :=
  let clamped := max (min value p.range.2) p.range.1
  (clamped, { p with value := clamped })

/-- `PropertyF32::step_forward` (exact addition; the rounding of float `+`
is not modelled, the subsequent clamp is). -/
def PropertyF32.step_forward (p : PropertyF32) : Rat × PropertyF32 :=
  let clamped := max (min (p.value + p.step) p.range.2) p.range.1
  (clamped, { p with value := clamped })

/-- `PropertyF32::step_backward`. -/
def PropertyF32.step_backward (p : PropertyF32) : Rat × PropertyF32 :=
  let clamped := max (min (p.value - p.step) p.range.2) p.range.1
  (clamped, { p with value := clamped })

/-- `PropertyF64`: same model as `PropertyF32`. -/
structure PropertyF64 where
  base : PropertyBase
  range : Rat × Rat
  step : Rat
  def_val : Rat
  value : Rat
deriving DecidableEq

/-- `PropertyF64::with_slider`. -/
def PropertyF64.with_slider (name : String) (range : Rat × Rat)
    (step def_val : Rat) : PropertyF64 :=
  { base := PropertyBase.with_slider_f64 name, range := range,
    step := step, def_val := def_val, value := def_val }

/-- `PropertyF64::with_spin_box`. -/
def PropertyF64.with_spin_box (name : String) (range : Rat × Rat)
    (step def_val : Rat) : PropertyF64 :=
  { base := PropertyBase.with_spin_box_f64 name, range := range,
    step := step, def_val := def_val, value := def_val }

/-- `PropertyF64::set_value`. -/
def PropertyF64.set_value (p : PropertyF64) (value : Rat) : Rat × PropertyF64 :=
  let clamped := max (min value p.range.2) p.range.1
  (clamped, { p with value := clamped })

/-- `PropertyF64::step_forward`. -/
def PropertyF64.step_forward (p : PropertyF64) : Rat × PropertyF64 :=
  let clamped := max (min (p.value + p.step) p.range.2) p.range.1
  (clamped, { p with value := clamped })

/-- `PropertyF64::step_backward`. -/
def PropertyF64.step_backward (p : PropertyF64) : Rat × PropertyF64 :=
  let clamped := max (min (p.value - p.step) p.range.2) p.range.1
  (clamped, { p with value := clamped })

/-- `PropertyI32`: i32 fields modelled as `Int`, arithmetic wrapping via
`wrap32` where the source performs machine addition/subtraction. -/
structure PropertyI32 where
  base : PropertyBase
  range : Int × Int
  step : Int
  def_val : Int
  value : Int
deriving DecidableEq

/-- `PropertyI32::with_combo_box`: requires non-empty `options` (an
`assert!` in the source, modelled as `Option`); `range` is
`(0, (options.len() - 1) as i32)`, `step` is 1 and the default value is
stored unclamped. -/
def PropertyI32.with_combo_box (name : String) (options : List String)
    (def_val : Int) : Option PropertyI32 :=
  if options.isEmpty then none
  else some
    { base := PropertyBase.with_combo_box_i32 name options,
      range := (0, usizeToI32 (options.length - 1)),
      step := 1, def_val := def_val, value := def_val }

/-- `PropertyI32::with_select`: same contract as `with_combo_box`. -/
def PropertyI32.with_select (name : String) (options : List String)
    (def_val : Int) : Option PropertyI32 :=
  if options.isEmpty then none
  else some
    { base := PropertyBase.with_select_i32 name options,
      range := (0, usizeToI32 (options.length - 1)),
      step := 1, def_val := def_val, value := def_val }

/-- `PropertyI32::with_slider`. -/
def PropertyI32.with_slider (name : String) (range : Int × Int)
    (step def_val : Int) : PropertyI32 :=
  { base := PropertyBase.with_slider_i32 name, range := range,
    step := step, def_val := def_val, value := def_val }

/-- `PropertyI32::with_spin_box`. -/
def PropertyI32.with_spin_box (name : String) (range : Int × Int)
    (step def_val : Int) : PropertyI32 :=
  { base := PropertyBase.with_spin_box_i32 name, range := range,
    step := step, def_val := def_val, value := def_val }

/-- `PropertyI32::set_value`: store `value.min(range.1).max(range.0)` and
return it. -/
def PropertyI32.set_value (p : PropertyI32) (value : Int) : Int × PropertyI32 :=
  let clamped := max (min value p.range.2) p.range.1
  (clamped, { p with value := clamped })

/-- `PropertyI32::step_forward`: `(value + step)` in machine arithmetic,
then clamp, persist and return. -/
def PropertyI32.step_forward (p : PropertyI32) : Int × PropertyI32 :=
  let clamped := max (min (wrap32 (p.value + p.step)) p.range.2) p.range.1
  (clamped, { p with value := clamped })

/-- `PropertyI32::step_backward`. -/
def PropertyI32.step_backward (p : PropertyI32) : Int × PropertyI32 :=
  let clamped := max (min (wrap32 (p.value - p.step)) p.range.2) p.range.1
  (clamped, { p with value := clamped })

/-- `PropertyI64`: i64 fields modelled as `Int` with `wrap64` arithmetic. -/
structure PropertyI64 where
  base : PropertyBase
  range : Int × Int
  step : Int
  def_val : Int
  value : Int
deriving DecidableEq

/-- `PropertyI64::with_combo_box`. -/
def PropertyI64.with_combo_box (name : String) (options : List String)
    (def_val : Int) : Option PropertyI64 :=
  if options.isEmpty then none
  else some
    { base := PropertyBase.with_combo_box_i64 name options,
      range := (0, usizeToI64 (options.length - 1)),
      step := 1, def_val := def_val, value := def_val }

/-- `PropertyI64::with_select`.  NOTE: faithful to the source, the base is
built with `PropertyBase::with_select_i32`, so the resulting `value_type`
is `I32` even though the concrete kind is `PropertyI64`. -/
def PropertyI64.with_select (name : String) (options : List String)
    (def_val : Int) : Option PropertyI64 :=
  if options.isEmpty then none
  else some
    { base := PropertyBase.with_select_i32 name options,
      range := (0, usizeToI64 (options.length - 1)),
      step := 1, def_val := def_val, value := def_val }

/-- `PropertyI64::with_slider`. -/
def PropertyI64.with_slider (name : String) (range : Int × Int)
    (step def_val : Int) : PropertyI64 :=
  { base := PropertyBase.with_slider_i64 name, range := range,
    step := step, def_val := def_val, value := def_val }

/-- `PropertyI64::with_spin_box`. -/
def PropertyI64.with_spin_box (name : String) (range : Int × Int)
    (step def_val : Int) : PropertyI64 :=
  { base := PropertyBase.with_spin_box_i64 name, range := range,
    step := step, def_val := def_val, value := def_val }

/-- `PropertyI64::set_value`. -/
def PropertyI64.set_value (p : PropertyI64) (value : Int) : Int × PropertyI64 :=
  let clamped := max (min value p.range.2) p.range.1
  (clamped, { p with value := clamped })

/-- `PropertyI64::step_forward`. -/
def PropertyI64.step_forward (p : PropertyI64) : Int × PropertyI64 :=
  let clamped := max (min (wrap64 (p.value + p.step)) p.range.2) p.range.1
  (clamped, { p with value := clamped })

/-- `PropertyI64::step_backward`. -/
def PropertyI64.step_backward (p : PropertyI64) : Int × PropertyI64 :=
  let clamped := max (min (wrap64 (p.value - p.step)) p.range.2) p.range.1
  (clamped, { p with value := clamped })

/-- `PropertyDummy`: a separator; only carries a `PropertyBase`. -/
structure PropertyDummy where
  base : PropertyBase
deriving DecidableEq

/-- `PropertyDummy::with_separator`. -/
def PropertyDummy.with_separator : PropertyDummy :=
  { base := PropertyBase.with_separator }

/-- `PropertyString`: `max_length` is advisory capacity metadata only. -/
structure PropertyString where
  base : PropertyBase
  max_length : Nat
  def_val : String
  value : String
deriving DecidableEq

/-- `PropertyString::with_text_box`. -/
def PropertyString.with_text_box (name : String) (max_length : Nat)
    (def_val : String) : PropertyString :=
  { base := PropertyBase.with_text_box name, max_length := max_length,
    def_val := def_val, value := def_val }

/-- `PropertyString::set_value`: clear then append (wholesale replacement);
no truncation to `max_length`. -/
def PropertyString.set_value (p : PropertyString) (value : String) :
    String × PropertyString :=
  (value, { p with value := value })

/-- A shared handle to a concrete property (`Arc<dyn Property + Send + Sync>`
in the source): the closed set of concrete kinds behind the `Property`
trait object. -/
inductive PropItem where
  | action (p : PropertyAction)
  | bool (p : PropertyBool)
  | dummy (p : PropertyDummy)
  | f32 (p : PropertyF32)
  | f64 (p : PropertyF64)
  | i32 (p : PropertyI32)
  | i64 (p : PropertyI64)
  | string (p : PropertyString)

/-- Shared base of a property item (every concrete kind delegates its
metadata methods to its `PropertyBase` via `wrap_property_base!`). -/
def PropItem.base : PropItem → PropertyBase
  | .action p => p.base
  | .bool p => p.base
  | .dummy p => p.base
  | .f32 p => p.base
  | .f64 p => p.base
  | .i32 p => p.base
  | .i64 p => p.base
  | .string p => p.base

/-- Rewrite the shared base of a property item, keeping its kind. -/
def PropItem.modifyBase (f : PropertyBase → PropertyBase) : PropItem → PropItem
  | .action p => .action { p with base := f p.base }
  | .bool p => .bool { p with base := f p.base }
  | .dummy p => .dummy { p with base := f p.base }
  | .f32 p => .f32 { p with base := f p.base }
  | .f64 p => .f64 { p with base := f p.base }
  | .i32 p => .i32 { p with base := f p.base }
  | .i64 p => .i64 { p with base := f p.base }
  | .string p => .string { p with base := f p.base }

/-- `Property::id`. -/
def PropItem.id (p : PropItem) : Nat := p.base.id

/-- `Property::set_id`. -/
def PropItem.set_id (p : PropItem) (i : Nat) : PropItem :=
  p.modifyBase fun b => { b with id := i }

/-- `Property::value_type`. -/
def PropItem.value_type (p : PropItem) : ValueType := p.base.value_type

/-- `Property::widget_type`. -/
def PropItem.widget_type (p : PropItem) : WidgetType := p.base.widget_type

/-- `Property::is_selectable` (trait default): true unless the widget is a
separator. -/
def PropItem.is_selectable (p : PropItem) : Bool :=
  p.widget_type != WidgetType.separator

/-- `Property::is_selected`. -/
def PropItem.is_selected (p : PropItem) : Bool := p.base.selected

/-- `Property::set_selected`. -/
def PropItem.set_selected (p : PropItem) (s : Bool) : PropItem :=
  p.modifyBase fun b => { b with selected := s }

/-- `Property::as_property_action`: `Some` only from the Action kind. -/
def PropItem.as_property_action : PropItem → Option PropertyAction
  | .action p => some p
  | _ => none

/-- `Property::as_property_bool`. -/
def PropItem.as_property_bool : PropItem → Option PropertyBool
  | .bool p => some p
  | _ => none

/-- `Property::as_property_dummy`. -/
def PropItem.as_property_dummy : PropItem → Option PropertyDummy
  | .dummy p => some p
  | _ => none

/-- `Property::as_property_f32`. -/
def PropItem.as_property_f32 : PropItem → Option PropertyF32
  | .f32 p => some p
  | _ => none

/-- `Property::as_property_f64`. -/
def PropItem.as_property_f64 : PropItem → Option PropertyF64
  | .f64 p => some p
  | _ => none

/-- `Property::as_property_i32`. -/
def PropItem.as_property_i32 : PropItem → Option PropertyI32
  | .i32 p => some p
  | _ => none

/-- `Property::as_property_i64`. -/
def PropItem.as_property_i64 : PropItem → Option PropertyI64
  | .i64 p => some p
  | _ => none

/-- `Property::as_property_string`. -/
def PropItem.as_property_string : PropItem → Option PropertyString
  | .string p => some p
  | _ => none

/-- `PropertySheet`: the ordered sequence of property handles. -/
structure PropertySheet where
  items : List PropItem

/-- `PropertySheet::new`. -/
def PropertySheet.new : PropertySheet := ⟨[]⟩

/-- `PropertySheet::with_items`: renumber every item to its position. -/
def PropertySheet.with_items (items : List PropItem) : PropertySheet :=
  ⟨items.enum.map fun ip => ip.2.set_id ip.1⟩

/-- `PropertySheet::len`. -/
def PropertySheet.len (s : PropertySheet) : Nat := s.items.length

/-- `PropertySheet::get` (bounds-checked). -/
def PropertySheet.get (s : PropertySheet) (index : Nat) : Option PropItem :=
  s.items.get? index

/-- `PropertySheet::append`: push to the end with `id = len_before`. -/
def PropertySheet.append (s : PropertySheet) (item : PropItem) : PropertySheet :=
  ⟨s.items ++ [item.set_id s.items.length]⟩

/-- `PropertySheet::insert`: the new item gets `id = index`; every item
previously at position `>= index` has its id incremented, then the new item
is placed at `index`. -/
def PropertySheet.insert (s : PropertySheet) (index : Nat) (item : PropItem) :
    PropertySheet :=
  ⟨s.items.take index ++
    item.set_id index :: (s.items.drop index).map fun q => q.set_id (q.id + 1)⟩

/-- `PropertySheet::remove`: every item at position `>= index` — including
the one being removed — has its id decremented (usize subtraction), then
the item at `index` is removed and returned. -/
def PropertySheet.remove (s : PropertySheet) (index : Nat) :
    Option PropItem × PropertySheet :=
  let dec := (s.items.drop index).map fun q => q.set_id (usizeSub q.id 1)
  (dec.head?, ⟨s.items.take index ++ dec.tail⟩)

/-- `PropertySheet::select_items`: exclusive selection — every item becomes
selected iff its id is listed. -/
def PropertySheet.select_items (s : PropertySheet) (ids : List Nat) :
    PropertySheet :=
  ⟨s.items.map fun p => p.set_selected (ids.contains p.id)⟩

/-- `PropertySheet::selected_items`: ids of all selected items in storage
order. -/
def PropertySheet.selected_items (s : PropertySheet) : List Nat :=
  (s.items.filter fun p => p.is_selected).map PropItem.id

/-- `PropertySheet::select_prev`: non-wrapped backward navigation with the
one-level skip of a non-selectable neighbor (note the `i > 2` guard). -/
def PropertySheet.select_prev (s : PropertySheet) : PropertySheet :=
  match s.selected_items with
  | i :: _ =>
    if 0 < i ∧ i < s.len then
      match s.get (i - 1) with
      | some p =>
        if p.is_selectable = false ∧ 2 < i then s.select_items [i - 2]
        else s.select_items [i - 1]
      | none => s
    else s
  | [] => s.select_items [usizeSub s.len 1]

/-- `PropertySheet::select_prev_wrapped`: as `select_prev` but wraps to
`len - 1` when already at the first item. -/
def PropertySheet.select_prev_wrapped (s : PropertySheet) : PropertySheet :=
  match s.selected_items with
  | i :: _ =>
    if 0 < i then
      match s.get (i - 1) with
      | some p =>
        if p.is_selectable = false ∧ 2 < i then s.select_items [i - 2]
        else s.select_items [i - 1]
      | none => s
    else s.select_items [usizeSub s.len 1]
  | [] => s.select_items [usizeSub s.len 1]

/-- `PropertySheet::select_next`: non-wrapped forward navigation with the
one-level skip of a non-selectable neighbor. -/
def PropertySheet.select_next (s : PropertySheet) : PropertySheet :=
  match s.selected_items with
  | i :: _ =>
    if i < usizeSub s.len 1 then
      match s.get (i + 1) with
      | some p =>
        if p.is_selectable = false ∧ i < usizeSub s.len 2 then
          s.select_items [i + 2]
        else s.select_items [i + 1]
      | none => s
    else s
  | [] => s.select_items [0]

/-- `PropertySheet::select_next_wrapped`: as `select_next` but wraps to 0
when already at the last item. -/
def PropertySheet.select_next_wrapped (s : PropertySheet) : PropertySheet :=
  match s.selected_items with
  | i :: _ =>
    if i < usizeSub s.len 1 then
      match s.get (i + 1) with
      | some p =>
        if p.is_selectable = false ∧ i < usizeSub s.len 2 then
          s.select_items [i + 2]
        else s.select_items [i + 1]
      | none => s
    else s.select_items [0]
  | [] => s.select_items [0]

/-- `PropertySheet::current_selected`. -/
def PropertySheet.current_selected (s : PropertySheet) : Option PropItem :=
  match s.selected_items with
  | [] => none
  | i :: _ => s.get i

/-- A structural operation on a sheet (the ops quantified over by the
identity invariant). -/
inductive SheetOp where
  | opAppend (item : PropItem)
  | opInsert (index : Nat) (item : PropItem)
  | opRemove (index : Nat)

/-- Apply one structural operation. -/
def applyOp (s : PropertySheet) : SheetOp → PropertySheet
  | .opAppend item => s.append item
  | .opInsert index item => s.insert index item
  | .opRemove index => (s.remove index).2

/-- Caller contract of one structural operation: insert index in
`[0, len]`; remove index in `[1, len)` (the `remove(0)` boundary case
excluded, as in the claim). -/
def ValidOp (s : PropertySheet) : SheetOp → Prop
  | .opAppend _ => True
  | .opInsert index _ => index ≤ s.len
  | .opRemove index => 1 ≤ index ∧ index < s.len

/-- A sequence of structural operations each valid in the state it runs in. -/
def ValidSeq : PropertySheet → List SheetOp → Prop
  | _, [] => True
  | s, op :: ops => ValidOp s op ∧ ValidSeq (applyOp s op) ops

/-- Run a sequence of structural operations. -/
def applySeq (s : PropertySheet) (ops : List SheetOp) : PropertySheet :=
  ops.foldl applyOp s

/-- The identity invariant: the item at every position `k` has `id() == k`. -/
def WellFormed (s : PropertySheet) : Prop :=
  s.items.map PropItem.id = List.range s.items.length

theorem PropItem.base_modifyBase (f : PropertyBase → PropertyBase)
    (p : PropItem) : (p.modifyBase f).base = f p.base := by
  cases p <;> rfl

@[simp] theorem PropItem.id_set_id (p : PropItem) (i : Nat) :
    (p.set_id i).id = i := by
  simp [PropItem.set_id, PropItem.id, PropItem.base_modifyBase]

@[simp] theorem PropItem.id_set_selected (p : PropItem) (b : Bool) :
    (p.set_selected b).id = p.id := by
  simp [PropItem.set_selected, PropItem.id, PropItem.base_modifyBase]

@[simp] theorem PropItem.is_selected_set_selected (p : PropItem) (b : Bool) :
    (p.set_selected b).is_selected = b := by
  simp [PropItem.set_selected, PropItem.is_selected, PropItem.base_modifyBase]

@[simp] theorem PropItem.is_selectable_set_selected (p : PropItem) (b : Bool) :
    (p.set_selected b).is_selectable = p.is_selectable := by
  simp [PropItem.set_selected, PropItem.is_selectable, PropItem.widget_type,
    PropItem.base_modifyBase]

@[simp] theorem usizeSub_of_le (a b : Nat) (h : b ≤ a) : usizeSub a b = a - b := by
  simp [usizeSub, h]

@[simp] theorem usizeSub_zero_one : usizeSub 0 1 = USIZE - 1 := by
  simp [usizeSub]

theorem head?_drop_eq_get? {α : Type} (l : List α) (n : Nat) :
    (l.drop n).head? = l.get? n := by
  induction n generalizing l with
  | zero => cases l <;> rfl
  | succ n ih => cases l with
    | nil => rfl
    | cons a l => simpa using ih l

theorem selected_items_select_items_aux (ids : List Nat) :
    ∀ l : List PropItem,
      ((l.map fun p => p.set_selected (ids.contains p.id)).filter
          fun p => p.is_selected).map PropItem.id
        = (l.map PropItem.id).filter fun k => ids.contains k := by
  intro l
  induction l with
  | nil => rfl
  | cons p l ih =>
    simp only [List.map_cons, List.filter_cons, PropItem.is_selected_set_selected]
    cases hct : ids.contains p.id
    · rw [if_neg Bool.false_ne_true, if_neg Bool.false_ne_true]
      exact ih
    · rw [if_pos rfl, if_pos rfl, List.map_cons, PropItem.id_set_selected, ih]

/-- Selection after `select_items`: the selected ids are exactly the stored
ids filtered by membership in the requested list, in storage order. -/
theorem selected_items_select_items (s : PropertySheet) (ids : List Nat) :
    (s.select_items ids).selected_items
      = (s.items.map PropItem.id).filter fun k => ids.contains k :=
  selected_items_select_items_aux ids s.items

theorem filter_range_single (n j : Nat) (h : j < n) :
    ((List.range n).filter fun k => [j].contains k) = [j] := by
  have hcontains : ∀ k : Nat, ([j].contains k) = (k == j) := by
    intro k
    simp only [List.contains, List.elem]
    cases k == j <;> rfl
  induction n with
  | zero => omega
  | succ n ih =>
    rw [List.range_succ, List.filter_append]
    have hsingle : (List.filter (fun k => [j].contains k) [n])
        = if (n == j) = true then [n] else [] := by
      rw [List.filter_cons, hcontains, List.filter_nil]
    rcases Nat.lt_or_ge j n with hj | hj
    · have hne : (n == j) = false := by
        have hne2 : n ≠ j := by omega
        simp [hne2]
      rw [ih hj, hsingle, hne]
      simp
    · have hjn : j = n := by omega
      subst hjn
      have hnil : ((List.range j).filter fun k => [j].contains k) = [] := by
        rw [List.filter_eq_nil_iff]
        intro a ha
        have ha2 : a < j := List.mem_range.mp ha
        simp only [hcontains, beq_iff_eq]
        omega
      have heq : (j == j) = true := by simp
      rw [hnil, hsingle, heq]
      simp

/-- Under the identity invariant, selecting the single id `j < len` leaves
exactly `[j]` selected. -/
theorem selected_items_select_single (s : PropertySheet) (hwf : WellFormed s)
    (j : Nat) (hj : j < s.len) :
    (s.select_items [j]).selected_items = [j] := by
  rw [selected_items_select_items, hwf]
  exact filter_range_single _ _ hj

/-- Under the identity invariant, every id returned by `selected_items` is a
valid position. -/
theorem first_selected_lt (s : PropertySheet) (hwf : WellFormed s)
    (i : Nat) (rest : List Nat) (hsel : s.selected_items = i :: rest) :
    i < s.len := by
  have hmem : i ∈ s.selected_items := by
    rw [hsel]; exact List.mem_cons_self i rest
  unfold PropertySheet.selected_items at hmem
  rcases List.mem_map.mp hmem with ⟨p, hp, hpid⟩
  have hpl : p ∈ s.items := List.mem_of_mem_filter hp
  have : i ∈ s.items.map PropItem.id := by
    exact List.mem_map.mpr ⟨p, hpl, hpid⟩
  rw [hwf] at this
  exact List.mem_range.mp this

/-- Under the identity invariant, the item stored at a valid position has
that position as its id. -/
theorem id_of_get (s : PropertySheet) (hwf : WellFormed s) (k : Nat)
    (p : PropItem) (h : s.items.get? k = some p) : p.id = k := by
  have hlen : k < s.items.length := by
    by_contra hge
    rw [List.get?_eq_none.mpr (by omega)] at h
    exact Option.noConfusion h
  have hk : (s.items.map PropItem.id).get? k = some p.id := by
    rw [List.get?_map, h]; rfl
  rw [hwf, List.get?_range hlen] at hk
  exact (Option.some.injEq _ _).mp hk |>.symm

theorem wellFormed_new : WellFormed PropertySheet.new := rfl

theorem map_id_take (s : PropertySheet) (hwf : WellFormed s) (i m : Nat)
    (hm : s.items.length = i + m) :
    (s.items.take i).map PropItem.id = List.range i := by
  rw [List.map_take, hwf, hm, List.range_add]
  exact List.take_left' (List.length_range i)

theorem map_id_drop (s : PropertySheet) (hwf : WellFormed s) (i m : Nat)
    (hm : s.items.length = i + m) :
    (s.items.drop i).map PropItem.id = (List.range m).map (i + ·) := by
  rw [List.map_drop, hwf, hm, List.range_add]
  exact List.drop_left' (List.length_range i)

theorem wellFormed_append (s : PropertySheet) (hwf : WellFormed s)
    (item : PropItem) : WellFormed (s.append item) := by
  unfold WellFormed PropertySheet.append
  simp only [List.map_append, List.length_append, List.map_cons, List.map_nil,
    PropItem.id_set_id, List.length_cons, List.length_nil]
  rw [hwf, ← List.range_succ]

theorem wellFormed_insert (s : PropertySheet) (hwf : WellFormed s)
    (i : Nat) (item : PropItem) (hi : i ≤ s.len) :
    WellFormed (s.insert i item) := by
  obtain ⟨m, hm⟩ : ∃ m, s.items.length = i + m := ⟨s.items.length - i, by
    have : i ≤ s.items.length := hi
    omega⟩
  unfold WellFormed PropertySheet.insert
  have hlen : (s.items.take i ++
      item.set_id i :: (s.items.drop i).map fun q => q.set_id (q.id + 1)).length
      = i + (m + 1) := by
    simp [List.length_take, List.length_drop, hm]
  rw [hlen, List.map_append, List.map_cons, List.map_map,
    map_id_take s hwf i m hm]
  have hdrop : ((s.items.drop i).map
      ((fun q : PropItem => q.id) ∘ fun q => q.set_id (q.id + 1)))
      = (List.range m).map fun x => i + x + 1 := by
    have hcomp : ((fun q : PropItem => q.id) ∘ fun q : PropItem => q.set_id (q.id + 1))
        = fun q : PropItem => q.id + 1 := by
      funext q
      simp
    rw [hcomp]
    have : (s.items.drop i).map (fun q : PropItem => q.id + 1)
        = ((s.items.drop i).map PropItem.id).map (· + 1) := by
      rw [List.map_map]
      rfl
    rw [this, map_id_drop s hwf i m hm, List.map_map]
    apply List.map_eq_map_iff.mpr
    intro a _
    simp
  rw [show ((fun q : PropItem => q.id) ∘ fun q : PropItem => q.set_id (q.id + 1))
      = fun q : PropItem => ((q.set_id (q.id + 1)).id) from rfl] at hdrop ⊢
  rw [hdrop, List.range_add, List.range_succ_eq_map, PropItem.id_set_id]
  simp only [List.map_cons, List.map_map]
  congr 1

theorem wellFormed_remove (s : PropertySheet) (hwf : WellFormed s)
    (i : Nat) (hi1 : 1 ≤ i) (hi2 : i < s.len) :
    WellFormed (s.remove i).2 := by
  obtain ⟨m, hm⟩ : ∃ m, s.items.length = i + (m + 1) := ⟨s.items.length - i - 1, by
    have : i < s.items.length := hi2
    omega⟩
  unfold WellFormed PropertySheet.remove
  simp only
  have htail : ((s.items.drop i).map fun q => q.set_id (usizeSub q.id 1)).tail
      = (s.items.drop (i + 1)).map fun q => q.set_id (usizeSub q.id 1) := by
    rw [← List.map_tail, List.tail_drop]
  rw [htail]
  have hlen : (s.items.take i ++
      (s.items.drop (i + 1)).map fun q => q.set_id (usizeSub q.id 1)).length
      = i + m := by
    simp [List.length_take, List.length_drop, hm]
    omega
  rw [hlen, List.map_append, List.map_map, map_id_take s hwf i (m + 1) hm]
  have hdrop : ((s.items.drop (i + 1)).map
      ((fun q : PropItem => q.id) ∘ fun q => q.set_id (usizeSub q.id 1)))
      = (List.range m).map fun x => i + x := by
    have hcomp : ((fun q : PropItem => q.id) ∘ fun q : PropItem => q.set_id (usizeSub q.id 1))
        = fun q : PropItem => usizeSub q.id 1 := by
      funext q
      simp
    rw [hcomp]
    have hsplit : (s.items.drop (i + 1)).map (fun q : PropItem => usizeSub q.id 1)
        = ((s.items.drop (i + 1)).map PropItem.id).map (fun x => usizeSub x 1) := by
      rw [List.map_map]
      rfl
    have hm2 : s.items.length = (i + 1) + m := by omega
    rw [hsplit, map_id_drop s hwf (i + 1) m hm2, List.map_map]
    apply List.map_eq_map_iff.mpr
    intro a _
    have h1a : 1 ≤ i + 1 + a := by omega
    simp [usizeSub, h1a]
  rw [hdrop, List.range_add]

theorem wellFormed_applyOp (s : PropertySheet) (hwf : WellFormed s)
    (op : SheetOp) (hv : ValidOp s op) : WellFormed (applyOp s op) := by
  cases op with
  | opAppend item => exact wellFormed_append s hwf item
  | opInsert index item => exact wellFormed_insert s hwf index item hv
  | opRemove index => exact wellFormed_remove s hwf index hv.1 hv.2

theorem wellFormed_applySeq (s : PropertySheet) (hwf : WellFormed s)
    (ops : List SheetOp) (hv : ValidSeq s ops) :
    WellFormed (applySeq s ops) := by
  induction ops generalizing s with
  | nil => exact hwf
  | cons op ops ih =>
    exact ih (applyOp s op) (wellFormed_applyOp s hwf op hv.1) hv.2

/-- The source's min-then-max clamp equals the median of the three values
whenever the range is correctly ordered. -/
theorem clamp_eq_median3 {α : Type} [LinearOrder α] (lo hi v : α)
    (h : lo ≤ hi) : max (min v hi) lo = median3 lo v hi := by
  unfold median3
  rcases le_total v lo with h1 | h1
  · have e1 : min v hi = v := min_eq_left (le_trans h1 h)
    have e2 : max v lo = lo := max_eq_right h1
    have e3 : min lo v = v := min_eq_right h1
    have e4 : max lo v = lo := max_eq_left h1
    have e5 : min lo hi = lo := min_eq_left h
    rw [e1, e2, e3, e4, e5, e2]
  · rcases le_total v hi with h2 | h2
    · have e1 : min v hi = v := min_eq_left h2
      have e2 : max v lo = v := max_eq_left h1
      have e3 : min lo v = lo := min_eq_left h1
      have e4 : max lo v = v := max_eq_right h1
      rw [e1, e2, e3, e4, e1, e4]
    · have e1 : min v hi = hi := min_eq_right h2
      have e2 : max hi lo = hi := max_eq_left h
      have e3 : min lo v = lo := min_eq_left h1
      have e4 : max lo v = v := max_eq_right h1
      have e5 : max lo hi = hi := max_eq_right h
      rw [e1, e2, e3, e4, e1, e5]

/-- The min-then-max clamp lands inside an ordered range. -/
theorem clamp_mem {α : Type} [LinearOrder α] (lo hi x : α) (h : lo ≤ hi) :
    lo ≤ max (min x hi) lo ∧ max (min x hi) lo ≤ hi :=
  ⟨le_max_right _ _, max_le (le_trans (min_le_right x hi) (le_refl hi)) h⟩

theorem select_prev_cons (s : PropertySheet) (i : Nat) (rest : List Nat)
    (hsel : s.selected_items = i :: rest) :
    s.select_prev = if 0 < i ∧ i < s.len then
        match s.get (i - 1) with
        | some p =>
          if p.is_selectable = false ∧ 2 < i then s.select_items [i - 2]
          else s.select_items [i - 1]
        | none => s
      else s := by
  unfold PropertySheet.select_prev
  rw [hsel]

theorem select_prev_nil (s : PropertySheet) (hsel : s.selected_items = []) :
    s.select_prev = s.select_items [usizeSub s.len 1] := by
  unfold PropertySheet.select_prev
  rw [hsel]

theorem select_prev_wrapped_cons (s : PropertySheet) (i : Nat)
    (rest : List Nat) (hsel : s.selected_items = i :: rest) :
    s.select_prev_wrapped = if 0 < i then
        match s.get (i - 1) with
        | some p =>
          if p.is_selectable = false ∧ 2 < i then s.select_items [i - 2]
          else s.select_items [i - 1]
        | none => s
      else s.select_items [usizeSub s.len 1] := by
  unfold PropertySheet.select_prev_wrapped
  rw [hsel]

theorem select_prev_wrapped_nil (s : PropertySheet)
    (hsel : s.selected_items = []) :
    s.select_prev_wrapped = s.select_items [usizeSub s.len 1] := by
  unfold PropertySheet.select_prev_wrapped
  rw [hsel]

theorem select_next_cons (s : PropertySheet) (i : Nat) (rest : List Nat)
    (hsel : s.selected_items = i :: rest) :
    s.select_next = if i < usizeSub s.len 1 then
        match s.get (i + 1) with
        | some p =>
          if p.is_selectable = false ∧ i < usizeSub s.len 2 then
            s.select_items [i + 2]
          else s.select_items [i + 1]
        | none => s
      else s := by
  unfold PropertySheet.select_next
  rw [hsel]

theorem select_next_nil (s : PropertySheet) (hsel : s.selected_items = []) :
    s.select_next = s.select_items [0] := by
  unfold PropertySheet.select_next
  rw [hsel]

theorem select_next_wrapped_cons (s : PropertySheet) (i : Nat)
    (rest : List Nat) (hsel : s.selected_items = i :: rest) :
    s.select_next_wrapped = if i < usizeSub s.len 1 then
        match s.get (i + 1) with
        | some p =>
          if p.is_selectable = false ∧ i < usizeSub s.len 2 then
            s.select_items [i + 2]
          else s.select_items [i + 1]
        | none => s
      else s.select_items [0] := by
  unfold PropertySheet.select_next_wrapped
  rw [hsel]

theorem select_next_wrapped_nil (s : PropertySheet)
    (hsel : s.selected_items = []) :
    s.select_next_wrapped = s.select_items [0] := by
  unfold PropertySheet.select_next_wrapped
  rw [hsel]

/-- A push-button action item named Foo (Scenario A). -/
def btnFoo : PropItem :=
  PropItem.action (PropertyAction.with_button "Foo" "Foo" fun _ r => r)

/-- A push-button action item named Bar (Scenario A). -/
def btnBar : PropItem :=
  PropItem.action (PropertyAction.with_button "Bar" "Bar" fun _ r => r)

/-- A separator item. -/
def sepItem : PropItem := PropItem.dummy PropertyDummy.with_separator

/-- An f32 slider item named F1 (Scenario A). -/
def sliderF1 : PropItem :=
  PropItem.f32 (PropertyF32.with_slider "F1" (0, 1) 1 0)

/-- Scenario A sheet: [Button Foo, Button Bar, Separator, Slider F1] with
id 1 selected. -/
def scenarioASheet : PropertySheet :=
  (PropertySheet.with_items [btnFoo, btnBar, sepItem, sliderF1]).select_items [1]

/-- Sheet [Button Foo, Separator, Button Bar] with id 2 selected: the
backward-skip boundary case `i = 2`. -/
def prevSkipSheet : PropertySheet :=
  (PropertySheet.with_items [btnFoo, sepItem, btnBar]).select_items [2]

/-- The empty sheet. -/
def emptySheet : PropertySheet := PropertySheet.new

/-- Claim C1 counterexample: on [Button, Separator, Button] with id 2
selected, the neighbor at position 1 is not selectable and stepping by two
stays in range (i - 2 = 0), yet `select_prev` (and the wrapped variant)
selects index 1 — the separator — not index 0 as the claim states. -/
theorem select_prev_claim_counterexample :
    prevSkipSheet.selected_items = [2] ∧
    (prevSkipSheet.get 1).map PropItem.is_selectable = some false ∧
    prevSkipSheet.select_prev.selected_items = [1] ∧
    prevSkipSheet.select_prev.selected_items ≠ [0] ∧
    prevSkipSheet.select_prev_wrapped.selected_items = [1] ∧
    prevSkipSheet.select_prev_wrapped.selected_items ≠ [0] := by
  refine ⟨by decide, rfl, by decide, by decide, by decide, by decide⟩

/-- Claim C1 (amended): for every well-formed sheet whose first selected id
is i: the non-wrapped `select_prev` does nothing when i = 0; for i ≥ 1, if
the item at position i-1 exists, is not selectable and `i > 2` (the code's
guard — not `i - 2 ≥ 0` as claimed), both `select_prev` and
`select_prev_wrapped` select i-2; otherwise both select the immediate
neighbor i-1. -/
theorem select_prev_skip_spec (s : PropertySheet) (hwf : WellFormed s)
    (i : Nat) (rest : List Nat) (hsel : s.selected_items = i :: rest) :
    (i = 0 → s.select_prev = s) ∧
    (1 ≤ i → ∀ p, s.get (i - 1) = some p →
      (p.is_selectable = false ∧ 2 < i →
        s.select_prev.selected_items = [i - 2] ∧
        s.select_prev_wrapped.selected_items = [i - 2]) ∧
      (¬(p.is_selectable = false ∧ 2 < i) →
        s.select_prev.selected_items = [i - 1] ∧
        s.select_prev_wrapped.selected_items = [i - 1])) := by
  have hlt : i < s.len := first_selected_lt s hwf i rest hsel
  refine ⟨?_, ?_⟩
  · intro h0
    subst h0
    rw [select_prev_cons s 0 rest hsel, if_neg (by rintro ⟨h, -⟩; omega)]
  · intro h1 p hp
    have hcond : 0 < i ∧ i < s.len := ⟨h1, hlt⟩
    refine ⟨?_, ?_⟩
    · rintro ⟨hns, h2⟩
      constructor
      · rw [select_prev_cons s i rest hsel, if_pos hcond, hp]
        show (if p.is_selectable = false ∧ 2 < i then s.select_items [i - 2]
            else s.select_items [i - 1]).selected_items = [i - 2]
        rw [if_pos ⟨hns, h2⟩]
        exact selected_items_select_single s hwf (i - 2) (by omega)
      · rw [select_prev_wrapped_cons s i rest hsel, if_pos (show 0 < i from h1), hp]
        show (if p.is_selectable = false ∧ 2 < i then s.select_items [i - 2]
            else s.select_items [i - 1]).selected_items = [i - 2]
        rw [if_pos ⟨hns, h2⟩]
        exact selected_items_select_single s hwf (i - 2) (by omega)
    · intro hn
      constructor
      · rw [select_prev_cons s i rest hsel, if_pos hcond, hp]
        show (if p.is_selectable = false ∧ 2 < i then s.select_items [i - 2]
            else s.select_items [i - 1]).selected_items = [i - 1]
        rw [if_neg hn]
        exact selected_items_select_single s hwf (i - 1) (by omega)
      · rw [select_prev_wrapped_cons s i rest hsel, if_pos (show 0 < i from h1), hp]
        show (if p.is_selectable = false ∧ 2 < i then s.select_items [i - 2]
            else s.select_items [i - 1]).selected_items = [i - 1]
        rw [if_neg hn]
        exact selected_items_select_single s hwf (i - 1) (by omega)

/-- Witness for the amended claim C1 at the concrete boundary sheet. -/
theorem select_prev_skip_spec_witness :
    prevSkipSheet.select_prev.selected_items = [1] ∧
    prevSkipSheet.select_prev_wrapped.selected_items = [1] :=
  ((select_prev_skip_spec prevSkipSheet (by unfold WellFormed; decide) 2 [] (by decide)).2
    (by decide) ((sepItem.set_id 1).set_selected false) rfl).2
    (by rintro ⟨-, h⟩; omega)

/-- Claim C2: for every well-formed sheet whose first selected id is i,
`select_next` selects i+2 when the item at position i+1 exists, is not
selectable and i+2 ≤ len-1; otherwise it selects i+1; and it does nothing
when i = len-1.  In particular on Scenario A's sheet with id 1 selected,
one `select_next` makes the selection exactly [3], skipping the separator
at id 2. -/
theorem select_next_skip_spec :
    (∀ (s : PropertySheet), WellFormed s → ∀ (i : Nat) (rest : List Nat),
      s.selected_items = i :: rest →
      (∀ p, s.get (i + 1) = some p →
        (p.is_selectable = false ∧ i + 2 ≤ s.len - 1 →
          s.select_next.selected_items = [i + 2]) ∧
        (¬(p.is_selectable = false ∧ i + 2 ≤ s.len - 1) →
          s.select_next.selected_items = [i + 1])) ∧
      (i = s.len - 1 → s.select_next = s)) ∧
    scenarioASheet.select_next.selected_items = [3] := by
  constructor
  · intro s hwf i rest hsel
    have hlt : i < s.len := first_selected_lt s hwf i rest hsel
    have hlen1 : 1 ≤ s.len := by omega
    have husb1 : usizeSub s.len 1 = s.len - 1 := usizeSub_of_le _ _ hlen1
    constructor
    · intro p hp
      have hp1 : i + 1 < s.len := by
        by_contra hge
        have hnone : s.items.get? (i + 1) = none := by
          apply List.get?_eq_none.mpr
          have : s.items.length = s.len := rfl
          omega
        unfold PropertySheet.get at hp
        rw [hnone] at hp
        exact Option.noConfusion hp
      have hcond : i < usizeSub s.len 1 := by omega
      have husb2 : usizeSub s.len 2 = s.len - 2 := usizeSub_of_le _ _ (by omega)
      constructor
      · rintro ⟨hns, h2⟩
        rw [select_next_cons s i rest hsel, if_pos hcond, hp]
        show (if p.is_selectable = false ∧ i < usizeSub s.len 2 then
            s.select_items [i + 2] else s.select_items [i + 1]).selected_items
          = [i + 2]
        rw [if_pos ⟨hns, by omega⟩]
        exact selected_items_select_single s hwf (i + 2) (by omega)
      · intro hn
        rw [select_next_cons s i rest hsel, if_pos hcond, hp]
        show (if p.is_selectable = false ∧ i < usizeSub s.len 2 then
            s.select_items [i + 2] else s.select_items [i + 1]).selected_items
          = [i + 1]
        have hn2 : ¬(p.is_selectable = false ∧ i < usizeSub s.len 2) := by
          rintro ⟨ha, hb⟩
          exact hn ⟨ha, by omega⟩
        rw [if_neg hn2]
        exact selected_items_select_single s hwf (i + 1) (by omega)
    · intro hi
      rw [select_next_cons s i rest hsel, if_neg (by omega)]
  · decide

/-- Witness for claim C2: the general statement applied to Scenario A. -/
theorem select_next_skip_spec_witness :
    scenarioASheet.select_next.selected_items = [3] :=
  ((select_next_skip_spec.1 scenarioASheet (by unfold WellFormed; decide)
      1 [] (by decide)).1 ((sepItem.set_id 2).set_selected false) rfl).1
    ⟨by decide, by decide⟩

/-- Claim C10 counterexample: on the empty sheet nothing can be selected —
`select_next` leaves the selection empty rather than selecting an item at
index 0, and `select_prev`'s `len - 1` underflows to `USIZE - 1`. -/
theorem nav_empty_counterexample :
    emptySheet.selected_items = [] ∧
    emptySheet.select_next.selected_items = [] ∧
    emptySheet.select_next.selected_items ≠ [0] ∧
    emptySheet.select_prev.selected_items = [] ∧
    usizeSub emptySheet.len 1 = USIZE - 1 ∧
    emptySheet.select_prev.selected_items ≠ [usizeSub emptySheet.len 1] := by
  refine ⟨rfl, rfl, by decide, rfl, by decide, by decide⟩

/-- Claim C10 (amended): for every non-empty well-formed sheet in which no
item is selected, `select_prev` and `select_prev_wrapped` select the item
at index len-1, and `select_next` and `select_next_wrapped` select the item
at index 0.  (On the empty sheet all four calls leave the selection empty;
the `len - 1` computed by the prev variants underflows in usize.) -/
theorem nav_empty_selection_spec (s : PropertySheet) (hwf : WellFormed s)
    (hne : 1 ≤ s.len) (hsel : s.selected_items = []) :
    s.select_prev.selected_items = [s.len - 1] ∧
    s.select_prev_wrapped.selected_items = [s.len - 1] ∧
    s.select_next.selected_items = [0] ∧
    s.select_next_wrapped.selected_items = [0] := by
  have husb : usizeSub s.len 1 = s.len - 1 := usizeSub_of_le _ _ hne
  refine ⟨?_, ?_, ?_, ?_⟩
  · rw [select_prev_nil s hsel, husb]
    exact selected_items_select_single s hwf _ (by omega)
  · rw [select_prev_wrapped_nil s hsel, husb]
    exact selected_items_select_single s hwf _ (by omega)
  · rw [select_next_nil s hsel]
    exact selected_items_select_single s hwf _ (by omega)
  · rw [select_next_wrapped_nil s hsel]
    exact selected_items_select_single s hwf _ (by omega)

/-- Witness for the amended claim C10 on a concrete unselected sheet. -/
theorem nav_empty_selection_spec_witness :
    (PropertySheet.with_items [btnFoo, sepItem, btnBar]).select_prev.selected_items = [2] ∧
    (PropertySheet.with_items [btnFoo, sepItem, btnBar]).select_prev_wrapped.selected_items = [2] ∧
    (PropertySheet.with_items [btnFoo, sepItem, btnBar]).select_next.selected_items = [0] ∧
    (PropertySheet.with_items [btnFoo, sepItem, btnBar]).select_next_wrapped.selected_items = [0] :=
  nav_empty_selection_spec (PropertySheet.with_items [btnFoo, sepItem, btnBar])
    (by unfold WellFormed; decide) (by decide) (by decide)

attribute [reducible] WellFormed ValidOp ValidSeq

/-- Claim C3: starting from `new()`, after any sequence of `append`,
`insert` at an index in [0, len] and `remove` at an index in [1, len),
every position k holds an item whose id is k. -/
theorem identity_invariant_spec (ops : List SheetOp)
    (hv : ValidSeq PropertySheet.new ops) :
    ∀ (k : Nat) (p : PropItem),
      (applySeq PropertySheet.new ops).items.get? k = some p → p.id = k := by
  intro k p h
  exact id_of_get _ (wellFormed_applySeq PropertySheet.new wellFormed_new ops hv)
    k p h

/-- Witness for claim C3 on a concrete append/insert/remove sequence. -/
theorem identity_invariant_spec_witness :
    (applySeq PropertySheet.new
      [SheetOp.opAppend btnFoo, SheetOp.opAppend sepItem,
       SheetOp.opInsert 1 btnBar, SheetOp.opRemove 2]).items.get? 1
        = some (btnBar.set_id 1) ∧
    (btnBar.set_id 1).id = 1 :=
  ⟨rfl, identity_invariant_spec
    [SheetOp.opAppend btnFoo, SheetOp.opAppend sepItem,
     SheetOp.opInsert 1 btnBar, SheetOp.opRemove 2]
    (by exact ⟨trivial, trivial, by decide, by decide, trivial⟩)
    1 (btnBar.set_id 1) rfl⟩

/-- Claim C4: `remove(index)` decrements the id of every item at position
≥ index — inclusive of the item being removed — before removing it; for
`remove(0)` on a non-empty sheet whose first item has id 0 the removed
item's id is computed as `0 - 1` on the unsigned id, wrapping to
`USIZE - 1`. -/
theorem remove_decrement_spec :
    (∀ (s : PropertySheet) (index : Nat),
      (s.remove index).2.items = s.items.take index ++
        ((s.items.drop index).map fun q => q.set_id (usizeSub q.id 1)).tail ∧
      (s.remove index).1 = ((s.items.drop index).map
        fun q => q.set_id (usizeSub q.id 1)).head?) ∧
    (∀ (p : PropItem) (rest : List PropItem), p.id = 0 →
      ((PropertySheet.mk (p :: rest)).remove 0).1
          = some (p.set_id (USIZE - 1)) ∧
      ((PropertySheet.mk (p :: rest)).remove 0).2.items
          = rest.map fun q => q.set_id (usizeSub q.id 1)) := by
  constructor
  · intro s index
    exact ⟨rfl, rfl⟩
  · intro p rest hp
    constructor
    · show some (p.set_id (usizeSub p.id 1)) = some (p.set_id (USIZE - 1))
      rw [hp, usizeSub_zero_one]
    · rfl

/-- Witness for claim C4: removing index 0 from a one-item sheet wraps the
removed item's id around to `USIZE - 1 = 2^64 - 1`. -/
theorem remove_decrement_spec_witness :
    ((PropertySheet.mk [btnFoo]).remove 0).1 = some (btnFoo.set_id (USIZE - 1)) :=
  (remove_decrement_spec.2 btnFoo [] rfl).1

/-- Claim C5 counterexample: a PropertyI32 with inverted range (5, 0).
`set_value(3)` stores `max(min(3, 0), 5) = 5`, but the median of
(range.0, v, range.1) = (5, 3, 0) is 3. -/
theorem clamp_median_counterexample :
    ((PropertyI32.with_slider "X" (5, 0) 1 0).set_value 3).1 = 5 ∧
    median3 (5 : Int) 3 0 = 3 ∧
    ((PropertyI32.with_slider "X" (5, 0) 1 0).set_value 3).1
      ≠ median3 (PropertyI32.with_slider "X" (5, 0) 1 0).range.1 3
          (PropertyI32.with_slider "X" (5, 0) 1 0).range.2 := by
  refine ⟨by decide, by decide, by decide⟩

/-- Claim C5 (amended): for every Numeric property (machine i32/i64 and the
rational models of f32/f64), `set_value(v)` stores `min(v, range.1)` max'ed
against `range.0` and returns the stored value; whenever
`range.0 ≤ range.1` the resulting value equals
`median(range.0, v, range.1)`.  (For inverted ranges the stored value is
`range.0`, which differs from the median.) -/
theorem clamp_median_spec :
    (∀ (p : PropertyI32) (v : Int),
      (p.set_value v).1 = max (min v p.range.2) p.range.1 ∧
      (p.set_value v).2.value = (p.set_value v).1 ∧
      (p.range.1 ≤ p.range.2 →
        (p.set_value v).2.value = median3 p.range.1 v p.range.2)) ∧
    (∀ (p : PropertyI64) (v : Int),
      (p.set_value v).1 = max (min v p.range.2) p.range.1 ∧
      (p.set_value v).2.value = (p.set_value v).1 ∧
      (p.range.1 ≤ p.range.2 →
        (p.set_value v).2.value = median3 p.range.1 v p.range.2)) ∧
    (∀ (p : PropertyF32) (v : Rat),
      (p.set_value v).1 = max (min v p.range.2) p.range.1 ∧
      (p.set_value v).2.value = (p.set_value v).1 ∧
      (p.range.1 ≤ p.range.2 →
        (p.set_value v).2.value = median3 p.range.1 v p.range.2)) ∧
    (∀ (p : PropertyF64) (v : Rat),
      (p.set_value v).1 = max (min v p.range.2) p.range.1 ∧
      (p.set_value v).2.value = (p.set_value v).1 ∧
      (p.range.1 ≤ p.range.2 →
        (p.set_value v).2.value = median3 p.range.1 v p.range.2)) := by
  refine ⟨fun p v => ?_, fun p v => ?_, fun p v => ?_, fun p v => ?_⟩ <;>
    exact ⟨rfl, rfl, fun h => clamp_eq_median3 p.range.1 p.range.2 v h⟩

/-- Witness for the amended claim C5 on an ordered range. -/
theorem clamp_median_spec_witness :
    ((PropertyI32.with_slider "Y" (0, 10) 1 0).set_value 42).2.value
      = median3 (0 : Int) 42 10 :=
  (clamp_median_spec.1 (PropertyI32.with_slider "Y" (0, 10) 1 0) 42).2.2
    (by decide)

/-- One navigation step of a Numeric i32 property: forward or backward. -/
def stepOnceI32 (p : PropertyI32) (forward : Bool) : PropertyI32 :=
  if forward then p.step_forward.2 else p.step_backward.2

/-- A sequence of `step_forward` (true) / `step_backward` (false) calls. -/
def applyStepsI32 (p : PropertyI32) (ops : List Bool) : PropertyI32 :=
  ops.foldl stepOnceI32 p

/-- One navigation step of a Numeric i64 property. -/
def stepOnceI64 (p : PropertyI64) (forward : Bool) : PropertyI64 :=
  if forward then p.step_forward.2 else p.step_backward.2

/-- A sequence of `step_forward`/`step_backward` calls on an i64 property. -/
def applyStepsI64 (p : PropertyI64) (ops : List Bool) : PropertyI64 :=
  ops.foldl stepOnceI64 p

theorem applyStepsI32_bounds (p : PropertyI32) (ops : List Bool)
    (hne : ops ≠ []) (h : p.range.1 ≤ p.range.2) :
    p.range.1 ≤ (applyStepsI32 p ops).value ∧
    (applyStepsI32 p ops).value ≤ p.range.2 := by
  induction ops generalizing p with
  | nil => exact absurd rfl hne
  | cons op ops ih =>
    have hstep : p.range.1 ≤ (stepOnceI32 p op).value ∧
        (stepOnceI32 p op).value ≤ p.range.2 := by
      cases op
      · exact clamp_mem p.range.1 p.range.2 (wrap32 (p.value - p.step)) h
      · exact clamp_mem p.range.1 p.range.2 (wrap32 (p.value + p.step)) h
    cases ops with
    | nil => exact hstep
    | cons op2 ops2 =>
      have hr : (stepOnceI32 p op).range = p.range := by cases op <;> rfl
      have hle : (stepOnceI32 p op).range.1 ≤ (stepOnceI32 p op).range.2 := by
        rw [hr]; exact h
      have hres := ih (stepOnceI32 p op) (by simp) hle
      rw [hr] at hres
      exact hres

theorem applyStepsI64_bounds (p : PropertyI64) (ops : List Bool)
    (hne : ops ≠ []) (h : p.range.1 ≤ p.range.2) :
    p.range.1 ≤ (applyStepsI64 p ops).value ∧
    (applyStepsI64 p ops).value ≤ p.range.2 := by
  induction ops generalizing p with
  | nil => exact absurd rfl hne
  | cons op ops ih =>
    have hstep : p.range.1 ≤ (stepOnceI64 p op).value ∧
        (stepOnceI64 p op).value ≤ p.range.2 := by
      cases op
      · exact clamp_mem p.range.1 p.range.2 (wrap64 (p.value - p.step)) h
      · exact clamp_mem p.range.1 p.range.2 (wrap64 (p.value + p.step)) h
    cases ops with
    | nil => exact hstep
    | cons op2 ops2 =>
      have hr : (stepOnceI64 p op).range = p.range := by cases op <;> rfl
      have hle : (stepOnceI64 p op).range.1 ≤ (stepOnceI64 p op).range.2 := by
        rw [hr]; exact h
      have hres := ih (stepOnceI64 p op) (by simp) hle
      rw [hr] at hres
      exact hres

/-- One navigation step of a Numeric f32 property (rational model). -/
def stepOnceF32 (p : PropertyF32) (forward : Bool) : PropertyF32 :=
  if forward then p.step_forward.2 else p.step_backward.2

/-- A sequence of `step_forward`/`step_backward` calls on an f32 property. -/
def applyStepsF32 (p : PropertyF32) (ops : List Bool) : PropertyF32 :=
  ops.foldl stepOnceF32 p

/-- One navigation step of a Numeric f64 property (rational model). -/
def stepOnceF64 (p : PropertyF64) (forward : Bool) : PropertyF64 :=
  if forward then p.step_forward.2 else p.step_backward.2

/-- A sequence of `step_forward`/`step_backward` calls on an f64 property. -/
def applyStepsF64 (p : PropertyF64) (ops : List Bool) : PropertyF64 :=
  ops.foldl stepOnceF64 p

theorem applyStepsF32_bounds (p : PropertyF32) (ops : List Bool)
    (hne : ops ≠ []) (h : p.range.1 ≤ p.range.2) :
    p.range.1 ≤ (applyStepsF32 p ops).value ∧
    (applyStepsF32 p ops).value ≤ p.range.2 := by
  induction ops generalizing p with
  | nil => exact absurd rfl hne
  | cons op ops ih =>
    have hstep : p.range.1 ≤ (stepOnceF32 p op).value ∧
        (stepOnceF32 p op).value ≤ p.range.2 := by
      cases op
      · exact clamp_mem p.range.1 p.range.2 (p.value - p.step) h
      · exact clamp_mem p.range.1 p.range.2 (p.value + p.step) h
    cases ops with
    | nil => exact hstep
    | cons op2 ops2 =>
      have hr : (stepOnceF32 p op).range = p.range := by cases op <;> rfl
      have hle : (stepOnceF32 p op).range.1 ≤ (stepOnceF32 p op).range.2 := by
        rw [hr]; exact h
      have hres := ih (stepOnceF32 p op) (by simp) hle
      rw [hr] at hres
      exact hres

theorem applyStepsF64_bounds (p : PropertyF64) (ops : List Bool)
    (hne : ops ≠ []) (h : p.range.1 ≤ p.range.2) :
    p.range.1 ≤ (applyStepsF64 p ops).value ∧
    (applyStepsF64 p ops).value ≤ p.range.2 := by
  induction ops generalizing p with
  | nil => exact absurd rfl hne
  | cons op ops ih =>
    have hstep : p.range.1 ≤ (stepOnceF64 p op).value ∧
        (stepOnceF64 p op).value ≤ p.range.2 := by
      cases op
      · exact clamp_mem p.range.1 p.range.2 (p.value - p.step) h
      · exact clamp_mem p.range.1 p.range.2 (p.value + p.step) h
    cases ops with
    | nil => exact hstep
    | cons op2 ops2 =>
      have hr : (stepOnceF64 p op).range = p.range := by cases op <;> rfl
      have hle : (stepOnceF64 p op).range.1 ≤ (stepOnceF64 p op).range.2 := by
        rw [hr]; exact h
      have hres := ih (stepOnceF64 p op) (by simp) hle
      rw [hr] at hres
      exact hres

/-- Claim C6 counterexample: with inverted range (5, 0), a single
`step_forward` stores 5, which does not lie in the empty interval
[range.0, range.1] = [5, 0]. -/
theorem step_bounded_counterexample :
    (applyStepsI32 (PropertyI32.with_slider "X" (5, 0) 1 0) [true]).value = 5 ∧
    ¬((applyStepsI32 (PropertyI32.with_slider "X" (5, 0) 1 0) [true]).value
        ≤ (PropertyI32.with_slider "X" (5, 0) 1 0).range.2) := by
  refine ⟨by decide, by decide⟩

/-- Claim C6 (amended): for every Numeric property — the machine i32/i64
models and the rational models of f32/f64 — each
`step_forward`/`step_backward` computes `value() ± step()` (wrapping
machine arithmetic for i32/i64; exact addition in the rational float
model), clamps min-then-max, persists and returns the new value; provided
`range.0 ≤ range.1`, after any non-empty sequence of such calls the value
lies within [range.0, range.1], even when a single step alone would
overshoot it. -/
theorem step_bounded_spec :
    (∀ (p : PropertyI32),
      p.step_forward.1 = max (min (wrap32 (p.value + p.step)) p.range.2) p.range.1 ∧
      p.step_forward.2.value = p.step_forward.1 ∧
      p.step_backward.1 = max (min (wrap32 (p.value - p.step)) p.range.2) p.range.1 ∧
      p.step_backward.2.value = p.step_backward.1) ∧
    (∀ (p : PropertyI64),
      p.step_forward.1 = max (min (wrap64 (p.value + p.step)) p.range.2) p.range.1 ∧
      p.step_forward.2.value = p.step_forward.1 ∧
      p.step_backward.1 = max (min (wrap64 (p.value - p.step)) p.range.2) p.range.1 ∧
      p.step_backward.2.value = p.step_backward.1) ∧
    (∀ (p : PropertyF32),
      p.step_forward.1 = max (min (p.value + p.step) p.range.2) p.range.1 ∧
      p.step_forward.2.value = p.step_forward.1 ∧
      p.step_backward.1 = max (min (p.value - p.step) p.range.2) p.range.1 ∧
      p.step_backward.2.value = p.step_backward.1) ∧
    (∀ (p : PropertyF64),
      p.step_forward.1 = max (min (p.value + p.step) p.range.2) p.range.1 ∧
      p.step_forward.2.value = p.step_forward.1 ∧
      p.step_backward.1 = max (min (p.value - p.step) p.range.2) p.range.1 ∧
      p.step_backward.2.value = p.step_backward.1) ∧
    (∀ (p : PropertyI32) (ops : List Bool), ops ≠ [] →
      p.range.1 ≤ p.range.2 →
      p.range.1 ≤ (applyStepsI32 p ops).value ∧
      (applyStepsI32 p ops).value ≤ p.range.2) ∧
    (∀ (p : PropertyI64) (ops : List Bool), ops ≠ [] →
      p.range.1 ≤ p.range.2 →
      p.range.1 ≤ (applyStepsI64 p ops).value ∧
      (applyStepsI64 p ops).value ≤ p.range.2) ∧
    (∀ (p : PropertyF32) (ops : List Bool), ops ≠ [] →
      p.range.1 ≤ p.range.2 →
      p.range.1 ≤ (applyStepsF32 p ops).value ∧
      (applyStepsF32 p ops).value ≤ p.range.2) ∧
    (∀ (p : PropertyF64) (ops : List Bool), ops ≠ [] →
      p.range.1 ≤ p.range.2 →
      p.range.1 ≤ (applyStepsF64 p ops).value ∧
      (applyStepsF64 p ops).value ≤ p.range.2) :=
  ⟨fun p => ⟨rfl, rfl, rfl, rfl⟩,
   fun p => ⟨rfl, rfl, rfl, rfl⟩,
   fun p => ⟨rfl, rfl, rfl, rfl⟩,
   fun p => ⟨rfl, rfl, rfl, rfl⟩,
   fun p ops hne h => applyStepsI32_bounds p ops hne h,
   fun p ops hne h => applyStepsI64_bounds p ops hne h,
   fun p ops hne h => applyStepsF32_bounds p ops hne h,
   fun p ops hne h => applyStepsF64_bounds p ops hne h⟩

/-- Witness for the amended claim C6: steps that would overshoot the range
are clamped back inside it, for an i32 and for a float-model property. -/
theorem step_bounded_spec_witness :
    ((0 : Int) ≤ (applyStepsI32 (PropertyI32.with_slider "Z" (0, 10) 7 8)
        [true, true]).value ∧
      (applyStepsI32 (PropertyI32.with_slider "Z" (0, 10) 7 8)
        [true, true]).value ≤ 10) ∧
    ((0 : Rat) ≤ (applyStepsF32 (PropertyF32.with_slider "W" (0, 10) 7 8)
        [true, false]).value ∧
      (applyStepsF32 (PropertyF32.with_slider "W" (0, 10) 7 8)
        [true, false]).value ≤ 10) :=
  ⟨step_bounded_spec.2.2.2.2.1 (PropertyI32.with_slider "Z" (0, 10) 7 8)
      [true, true] (by decide) (by decide),
   step_bounded_spec.2.2.2.2.2.2.1 (PropertyF32.with_slider "W" (0, 10) 7 8)
      [true, false] (by decide) (by decide)⟩

/-- Claim C8: `trigger(requested)` invokes the stored callback with
`(self, requested)`, sets the checked state to the callback's return value
and returns that value; with a constantly-false callback, `is_checked()` is
false after `trigger(true)`. -/
theorem trigger_spec :
    (∀ (p : PropertyAction) (requested : Bool),
      (p.trigger requested).1 = p.callback ⟨p.base, p.checked⟩ requested ∧
      (p.trigger requested).2.checked = (p.trigger requested).1 ∧
      (p.trigger requested).2.is_checked = (p.trigger requested).1) ∧
    (∀ (p : PropertyAction), (∀ v r, p.callback v r = false) →
      (p.trigger true).2.is_checked = false) := by
  constructor
  · intro p requested
    exact ⟨rfl, rfl, rfl⟩
  · intro p hcb
    show p.callback ⟨p.base, p.checked⟩ true = false
    exact hcb _ _

/-- Witness for claim C8: Scenario D, an always-false (vetoing) callback. -/
theorem trigger_spec_witness :
    ((PropertyAction.with_check_box "Veto" false fun _ _ => false).trigger
        true).2.is_checked = false :=
  trigger_spec.2 (PropertyAction.with_check_box "Veto" false fun _ _ => false)
    (fun _ _ => rfl)

/-- The record `with_combo_box`/`with_select` build when options are
non-empty. -/
def mkComboI32 (name : String) (options : List String) (def_val : Int) :
    PropertyI32 :=
  { base := PropertyBase.with_combo_box_i32 name options,
    range := (0, usizeToI32 (options.length - 1)), step := 1,
    def_val := def_val, value := def_val }

/-- The `PropertyI32` value Scenario C's `with_combo_box` constructs. -/
def comboC : PropertyI32 :=
  { base := PropertyBase.with_combo_box_i32 "C" ["A", "B", "C"],
    range := (0, 2), step := 1, def_val := 5, value := 5 }

/-- Claim C9: `with_combo_box("C", [A,B,C], 5)` constructs range (0, 2) and
step 1 with value 5 stored unclamped; a subsequent `set_value(5)` stores
and returns 2; the constructor rejects empty options and always sets
`range = (0, options.len() - 1)`. -/
theorem combo_box_spec :
    PropertyI32.with_combo_box "C" ["A", "B", "C"] 5 = some comboC ∧
    comboC.range = (0, 2) ∧ comboC.step = 1 ∧ comboC.value = 5 ∧
    (comboC.set_value 5).1 = 2 ∧ (comboC.set_value 5).2.value = 2 ∧
    (∀ (name : String) (def_val : Int),
      PropertyI32.with_combo_box name [] def_val = none) ∧
    (∀ (name : String) (options : List String) (def_val : Int),
      options ≠ [] →
      ∃ p, PropertyI32.with_combo_box name options def_val = some p ∧
        p.range = (0, usizeToI32 (options.length - 1)) ∧
        p.step = 1 ∧ p.value = def_val) := by
  refine ⟨by decide, by decide, rfl, rfl, by decide, by decide,
    fun name dv => rfl, ?_⟩
  intro name options dv hne
  have hemp : options.isEmpty = false := by
    cases options with
    | nil => exact absurd rfl hne
    | cons a l => rfl
  refine ⟨mkComboI32 name options dv, ?_, rfl, rfl, rfl⟩
  unfold PropertyI32.with_combo_box mkComboI32
  rw [hemp]
  simp

/-- Witness for claim C9's universally quantified parts. -/
theorem combo_box_spec_witness :
    ∃ p, PropertyI32.with_combo_box "W" ["Only"] 7 = some p ∧
      p.range = (0, usizeToI32 ((["Only"] : List String).length - 1)) ∧
      p.step = 1 ∧ p.value = 7 :=
  combo_box_spec.2.2.2.2.2.2.2 "W" ["Only"] 7 (by decide)

/-- Claim C7: the property built by `PropertyI64::with_select` reports
`value_type() = I32` (its base is built with `with_select_i32`), yet the
downcast named by that discriminant, `as_property_i32`, returns `None`
while `as_property_i64` succeeds — `value_type()`-directed dispatch fails
for this constructor, contradicting the closed one-of-N contract. -/
theorem i64_select_value_type_mismatch :
    (PropertyI64.with_select "Mode" ["A", "B"] 0).isSome = true ∧
    (PropertyI64.with_select "Mode" ["A", "B"] 0).map
        (fun p => (PropItem.i64 p).value_type) = some ValueType.i32 ∧
    (PropertyI64.with_select "Mode" ["A", "B"] 0).map
        (fun p => (PropItem.i64 p).as_property_i32) = some none ∧
    (PropertyI64.with_select "Mode" ["A", "B"] 0).map
        (fun p => (PropItem.i64 p).as_property_i64.isSome) = some true ∧
    (PropertyBase.with_select_i32 "Mode" ["A", "B"]).value_type
        = ValueType.i32 :=
  ⟨rfl, rfl, rfl, rfl, rfl⟩
